import Mathlib

/-!
# Verification of the Daily Football List pipeline (`src/livescore_agent.py`)

A shallow embedding of the `DailyFootballList` class from `livescore_agent.py`
and proofs about the claims of the specification.

Modelling conventions:

* Python strings are Lean `String`s (a wrapper around `List Char`); the regex
  character classes `\w`, `\s` and the `upper`/`lower`/`strip` methods are
  modelled at their ASCII meaning (`Char.isAlphanum`, the six ASCII whitespace
  characters, `Char.toUpper`/`Char.toLower`), which is exact on the data the
  program manipulates.
* The system clock (`datetime.now()` and the strings derived from it via
  `strftime`/`isoformat`) is an explicit `Calendar` input: `now` is today,
  `dayAt n` is today plus `n` days, and the remaining fields are the formatted
  strings the program reads from the clock.
* Network I/O and BeautifulSoup DOM selection are abstracted at the
  `element.get_text(strip=True)` boundary: a response is the list of texts of
  the elements selected by `parse_website_fixtures` (in selection order), or
  `none` when the HTTP request fails or returns a non-200 status.
* Python dicts that the code only reads by key are association lists in
  insertion order; `dict.get(k, d)` is `List.lookup` plus a default.
* Records are structures with exactly the keys the Python dicts carry.  A
  fixture dict has no score fields at all in this script (it extracts upcoming
  fixtures, not results).
-/

namespace DFL

/-- The six ASCII whitespace characters of Python's `\s` and `str.strip()`. -/
def isPyWS (c : Char) : Bool :=
  c == ' ' || c == '\t' || c == '\n' || c == '\r' || c == '\x0b' || c == '\x0c'

/-- Python `\w` (ASCII): letters, digits, or underscore. -/
def isWordChar (c : Char) : Bool :=
  c.isAlphanum || c == '_'

/-- The character class `[A-Za-z\s&\.\'-]` used by every team-name pattern. -/
def teamClass (c : Char) : Bool :=
  c.isAlpha || isPyWS c || c == '&' || c == '.' || c == '\'' || c == '-'

/-- The keep-class of `re.sub(r'[^\w\s\.\'-]', '', name)` in `clean_team_name`. -/
def keepChar (c : Char) : Bool :=
  isWordChar c || isPyWS c || c == '.' || c == '\'' || c == '-'

/-- Python `str.strip()` on a character list: drop leading and trailing whitespace. -/
def pstripC (s : List Char) : List Char :=
  ((s.dropWhile isPyWS).reverse.dropWhile isPyWS).reverse

/-- Python `str.strip()`. -/
def pstrip (s : String) : String :=
  String.mk (pstripC s.data)

/-- Python `sub in s` (substring containment) on character lists. -/
def containsSubC (sub : List Char) : List Char → Bool
  | [] => sub.isEmpty
  | c :: t => sub.isPrefixOf (c :: t) || containsSubC sub t

/-- Python `sub in s` on strings. -/
def containsSub (sub s : String) : Bool :=
  containsSubC sub.data s.data

/-- Python `str.upper()` (ASCII). -/
def upperS (s : String) : String :=
  String.mk (s.data.map Char.toUpper)

/-- Python `str.lower()` (ASCII). -/
def lowerS (s : String) : String :=
  String.mk (s.data.map Char.toLower)

/-- Python `dict.get(k, d)` over an association list in insertion order. -/
def dget (l : List (String × String)) (k d : String) : String :=
  match l with
  | [] => d
  | (a, b) :: t => if k == a then b else dget t k d

/-- One calendar day as the program observes it through `strftime`:
`weekday` is Python's `date.weekday()` (Monday = 0), `dayName` is
`strftime('%A')` and `longDate` is `strftime('%A, %d %B %Y')`. -/
structure Day where
  weekday : Nat
  dayName : String
  longDate : String
deriving DecidableEq, Repr, Inhabited

/-- The system clock of one run: everything `datetime.now()` and its
formatting produce.  `dayAt n` is `datetime.now() + timedelta(days=n)`. -/
structure Calendar where
  now : Day
  dayAt : Nat → Day
  /-- `strftime('%Y%m%d_%H%M%S')`, used in export file names. -/
  timestamp : String
  /-- `datetime.now().isoformat()`, used in the JSON export and summary. -/
  isoNow : String
  /-- `strftime('%A, %d %B %Y at %H:%M UTC')`, used in the HTML report. -/
  prettyNow : String

/-- The per-competition data of `self.competitions`. -/
structure CompData where
  ctype : String
  country : String
  priority : Nat
  color : String
  teams : List String
deriving DecidableEq, Repr, Inhabited

/-- `self.competitions`, in dict insertion order. -/
def competitions : List (String × CompData) :=
  [("UEFA Champions League",
    { ctype := "international", country := "Europe", priority := 1, color := "#0066CC",
      teams := ["Real Madrid", "Manchester City", "Bayern Munich", "PSG", "Arsenal", "Barcelona",
                "Inter Milan", "Atletico Madrid", "Borussia Dortmund", "AC Milan", "Chelsea",
                "Liverpool", "Napoli", "Porto", "Benfica", "Ajax"] }),
   ("UEFA Europa League",
    { ctype := "international", country := "Europe", priority := 2, color := "#FF6600",
      teams := ["Sevilla", "Juventus", "Roma", "Tottenham", "Villarreal", "Eintracht Frankfurt",
                "West Ham", "Leicester City", "Real Betis", "Lyon", "Lazio", "Marseille"] }),
   ("UEFA Conference League",
    { ctype := "international", country := "Europe", priority := 3, color := "#669900",
      teams := ["Fiorentina", "West Ham", "AZ Alkmaar", "Anderlecht", "PAOK", "Club Brugge",
                "Basel", "Nice"] }),
   ("Premier League",
    { ctype := "domestic", country := "England", priority := 1, color := "#3D195B",
      teams := ["Arsenal", "Manchester City", "Liverpool", "Chelsea", "Manchester United",
                "Tottenham", "Newcastle United", "Brighton & Hove Albion", "West Ham United",
                "Aston Villa", "Crystal Palace", "Fulham", "Wolves", "Everton", "Brentford",
                "Nottingham Forest", "Luton Town", "Burnley", "Sheffield United", "Bournemouth"] }),
   ("FA Cup",
    { ctype := "cup", country := "England", priority := 2, color := "#CC0000", teams := [] }),
   ("EFL Cup",
    { ctype := "cup", country := "England", priority := 3, color := "#00AA44", teams := [] }),
   ("La Liga",
    { ctype := "domestic", country := "Spain", priority := 1, color := "#FF4444",
      teams := ["Real Madrid", "Barcelona", "Atletico Madrid", "Sevilla", "Real Betis",
                "Real Sociedad", "Villarreal", "Valencia", "Athletic Bilbao", "Getafe", "Osasuna",
                "Las Palmas", "Rayo Vallecano", "Girona", "Mallorca", "Cadiz", "Celta Vigo",
                "Alaves", "Granada", "Almeria"] }),
   ("Copa del Rey",
    { ctype := "cup", country := "Spain", priority := 2, color := "#FF6600", teams := [] }),
   ("Serie A",
    { ctype := "domestic", country := "Italy", priority := 1, color := "#0066AA",
      teams := ["Juventus", "Inter Milan", "AC Milan", "Napoli", "AS Roma", "Lazio", "Atalanta",
                "Fiorentina", "Bologna", "Torino", "Monza", "Genoa", "Lecce", "Udinese",
                "Frosinone", "Empoli", "Verona", "Cagliari", "Sassuolo", "Salernitana"] }),
   ("Coppa Italia",
    { ctype := "cup", country := "Italy", priority := 2, color := "#009900", teams := [] }),
   ("Bundesliga",
    { ctype := "domestic", country := "Germany", priority := 1, color := "#CC0000",
      teams := ["Bayern Munich", "Borussia Dortmund", "RB Leipzig", "Union Berlin", "SC Freiburg",
                "Bayer Leverkusen", "Eintracht Frankfurt", "VfL Wolfsburg",
                "Borussia Monchengladbach", "Mainz 05", "FC Koln", "Hoffenheim", "VfB Stuttgart",
                "FC Augsburg", "Werder Bremen", "VfL Bochum", "Heidenheim", "Darmstadt 98"] }),
   ("DFB-Pokal",
    { ctype := "cup", country := "Germany", priority := 2, color := "#000000", teams := [] }),
   ("Ligue 1",
    { ctype := "domestic", country := "France", priority := 1, color := "#0066CC",
      teams := ["Paris Saint-Germain", "AS Monaco", "Lille", "Olympique Marseille",
                "Olympique Lyon", "Nice", "Lens", "Rennes", "Strasbourg", "Nantes", "Montpellier",
                "Reims", "Toulouse", "Brest", "Le Havre", "Lorient", "Metz", "Clermont Foot",
                "Burnley"] }),
   ("Coupe de France",
    { ctype := "cup", country := "France", priority := 2, color := "#FF0000", teams := [] }),
   ("Eredivisie",
    { ctype := "domestic", country := "Netherlands", priority := 2, color := "#FF6600",
      teams := ["Ajax", "PSV Eindhoven", "Feyenoord", "AZ Alkmaar", "FC Twente", "Vitesse",
                "FC Utrecht", "Go Ahead Eagles", "Sparta Rotterdam", "PEC Zwolle", "NEC Nijmegen",
                "Heerenveen", "Almere City", "Fortuna Sittard", "RKC Waalwijk", "FC Volendam",
                "Excelsior", "VVV-Venlo"] }),
   ("Primeira Liga",
    { ctype := "domestic", country := "Portugal", priority := 2, color := "#009900",
      teams := ["Benfica", "FC Porto", "Sporting CP", "SC Braga", "Vitoria Guimaraes", "Boavista",
                "Gil Vicente", "Casa Pia", "Rio Ave", "Moreirense", "Famalicao", "Estrela",
                "Arouca", "Vizela", "Chaves", "Farense", "Portimonense", "Estoril"] }),
   ("Turkish Super League",
    { ctype := "domestic", country := "Turkey", priority := 2, color := "#FF0000",
      teams := ["Galatasaray", "Fenerbahce", "Besiktas", "Trabzonspor", "Basaksehir", "Sivasspor",
                "Konyaspor", "Antalyaspor", "Kayserispor", "Alanyaspor", "Kasimpasa",
                "Gaziantep FK", "Adana Demirspor", "Istanbulspor", "Fatih Karagumruk",
                "Hatayspor", "Pendikspor", "Rizespor"] }),
   ("Belgian Pro League",
    { ctype := "domestic", country := "Belgium", priority := 3, color := "#000000",
      teams := ["Club Brugge", "Royal Antwerp", "Union Saint-Gilloise", "Genk", "Anderlecht",
                "Gent", "Standard Liege", "Cercle Brugge", "Mechelen", "Sint-Truiden", "Westerlo",
                "Kortrijk", "Charleroi", "Eupen", "OH Leuven", "Royal Excel Mouscron"] }),
   ("Austrian Bundesliga",
    { ctype := "domestic", country := "Austria", priority := 3, color := "#CC0000",
      teams := ["Red Bull Salzburg", "SK Sturm Graz", "LASK", "Austria Vienna", "Rapid Vienna",
                "Wolfsberger AC", "TSV Hartberg", "FC Blau-Weiss Linz", "Austria Klagenfurt",
                "WSG Tirol", "Rheindorf Altach", "SCR Altach"] }),
   ("Swiss Super League",
    { ctype := "domestic", country := "Switzerland", priority := 3, color := "#FF0000",
      teams := ["Young Boys", "Basel", "Servette", "Lugano", "St. Gallen", "Zurich", "Lucerne",
                "Sion", "Winterthur", "Yverdon", "Grasshopper", "Lausanne-Sport"] })]

/-- The abbreviation table of `clean_team_name`. -/
def cleanMappings : List (String × String) :=
  [("Man City", "Manchester City"), ("Man Utd", "Manchester United"),
   ("Spurs", "Tottenham"), ("Barca", "Barcelona"), ("Real", "Real Madrid"),
   ("Bayern", "Bayern Munich"), ("Juve", "Juventus"), ("Inter", "Inter Milan"),
   ("Roma", "AS Roma"), ("Dortmund", "Borussia Dortmund"), ("PSG", "Paris Saint-Germain")]

/-- `clean_team_name`: drop characters outside `[\w\s\.\'-]`, strip, apply the
abbreviation table, truncate to 35 characters. -/
def clean_team_name (name : String) : String :=
  let clean := String.mk (pstripC (name.data.filter keepChar))
  String.mk ((dget cleanMappings clean clean).data.take 35)

/-- `validate_teams`: reject names shorter than 3 characters, identical names,
and names containing a banned word. -/
def validate_teams (home away : String) : Bool :=
  let banned := ["fixture", "match", "table", "league"]
  !(home.length < 3 || away.length < 3 || home == away ||
    banned.any (fun w => containsSub w (lowerS home)) ||
    banned.any (fun w => containsSub w (lowerS away)))

/-- `identify_competition_from_teams`: first competition (in dict order) with a
non-empty team list containing either team, else `"Premier League"`. -/
def identify_competition_from_teams (home_team away_team : String) : String :=
  match competitions.find? (fun p =>
      !p.2.teams.isEmpty && (p.2.teams.contains home_team || p.2.teams.contains away_team)) with
  | some p => p.1
  | none => "Premier League"

/-- The TV-coverage table of `get_tv_info`. -/
def tvMappings : List (String × String) :=
  [("UEFA Champions League", "BT Sport, CBS Sports"), ("UEFA Europa League", "BT Sport"),
   ("Premier League", "Sky Sports, BBC Sport"), ("La Liga", "ESPN, Sky Sports"),
   ("Serie A", "BT Sport, ESPN"), ("Bundesliga", "Sky Sports"), ("Ligue 1", "BT Sport")]

/-- `get_tv_info`. -/
def get_tv_info (competition : String) : String :=
  dget tvMappings competition "Check local listings"

/-- `get_parent_league`. -/
def parentMappings : List (String × String) :=
  [("FA Cup", "Premier League"), ("Copa del Rey", "La Liga"), ("Coppa Italia", "Serie A"),
   ("DFB-Pokal", "Bundesliga"), ("Coupe de France", "Ligue 1")]

/-- `get_parent_league` as an optional lookup (`mappings.get(cup)` is `None`
when the cup is unknown). -/
def get_parent_league (cup : String) : Option String :=
  match parentMappings.find? (fun p => p.1 == cup) with
  | some p => some p.2
  | none => none

/-- `get_upcoming_match_date`: the long date of the next Saturday strictly
after today (`days_ahead = 5 - weekday()`, plus 7 when non-positive). -/
def get_upcoming_match_date (cal : Calendar) : String :=
  let d : Int := 5 - (cal.now.weekday : Int)
  let d := if d ≤ 0 then d + 7 else d
  (cal.dayAt d.toNat).longDate

/-! ## The regexes of `parse_fixture_element` and `extract_team_names`

`re.search(r'(\d{1,2}:\d{2})', text)` and `re.sub(r'\d{1,2}:\d{2}', '', text)`
are modelled by a dedicated scanner (`timeMatchAt` tries the greedy two-digit
hour first, then one digit, exactly as the backtracking engine does); the
word-boundary substitution `\b(vs|v|against)\b` (case-insensitive) and the
three team-name patterns are modelled by a small backtracking engine over
sequences of atoms (literal characters and counted character-class
repetitions), which is exactly the shape of those patterns. -/

/-- Greedy match of `\d{1,2}:\d{2}` anchored at the head of the input,
returning the matched characters (length 5 or 4). -/
def timeMatchAt : List Char → Option (List Char)
  | a :: b :: c :: d :: e :: _ =>
    if a.isDigit && b.isDigit && c == ':' && d.isDigit && e.isDigit then some [a, b, c, d, e]
    else if a.isDigit && b == ':' && c.isDigit && d.isDigit then some [a, b, c, d]
    else none
  | [a, b, c, d] =>
    if a.isDigit && b == ':' && c.isDigit && d.isDigit then some [a, b, c, d] else none
  | _ => none

/-- `re.search(r'(\d{1,2}:\d{2})', text)`: leftmost match. -/
def findTime : List Char → Option (List Char)
  | [] => none
  | c :: t =>
    match timeMatchAt (c :: t) with
    | some m => some m
    | none => findTime t

/-- The scan of `re.sub(r'\d{1,2}:\d{2}', '', text)`, structurally recursive
on a fuel bound (each step consumes at least one character, so fuel equal to
the input length is always enough; an exhausted fuel returns the remainder
unchanged and is never reached). -/
def removeTimesF : Nat → List Char → List Char
  | 0, s => s
  | _ + 1, [] => []
  | fuel + 1, c :: t =>
    match timeMatchAt (c :: t) with
    | some m => removeTimesF fuel ((c :: t).drop m.length)
    | none => c :: removeTimesF fuel t

/-- `re.sub(r'\d{1,2}:\d{2}', '', text)`: remove every non-overlapping
leftmost match. -/
def removeTimes (s : List Char) : List Char :=
  removeTimesF s.length s

/-- Does a case-insensitive (ASCII) match of `w` start the input? -/
def ciPrefix : List Char → List Char → Bool
  | [], _ => true
  | _ :: _, [] => false
  | a :: w, c :: t => a.toLower == c.toLower && ciPrefix w t

/-- `\b(vs|v|against)\b` (case-insensitive) anchored at the head of the input:
`prevWord` says whether the character before the current position is a word
character (the leading `\b` then requires it to be false, since all the
alternatives start with a word character).  Alternatives are tried in the
pattern's order; the trailing `\b` requires the next character to be a
non-word character or the end.  Returns the length of the match. -/
def matchVs (prevWord : Bool) (s : List Char) : Option Nat :=
  if prevWord then none
  else
    [['v', 's'], ['v'], ['a', 'g', 'a', 'i', 'n', 's', 't']].findSome? fun w =>
      if ciPrefix w s then
        match s.drop w.length with
        | [] => some w.length
        | c :: _ => if isWordChar c then none else some w.length
      else none

/-- The scan of `re.sub(r'\b(vs|v|against)\b', '|', text, flags=re.I)`,
structurally recursive on a fuel bound (each step consumes at least one
character).  After a replacement, scanning resumes after the matched text,
whose last character is always a word character. -/
def subVsF : Nat → Bool → List Char → List Char
  | 0, _, s => s
  | _ + 1, _, [] => []
  | fuel + 1, prevWord, c :: t =>
    match matchVs prevWord (c :: t) with
    | some k => '|' :: subVsF fuel true ((c :: t).drop k)
    | none => c :: subVsF fuel (isWordChar c) t

/-- `re.sub(r'\b(vs|v|against)\b', '|', text, flags=re.I)`. -/
def subVs (prevWord : Bool) (s : List Char) : List Char :=
  subVsF s.length prevWord s

/-- One atom of a team-name pattern: a literal character, or a counted
repetition of a single-character class (`lo` to `hi` occurrences, greedy or
lazy, optionally a capture group). -/
inductive Atom where
  | lit (c : Char)
  | rep (p : Char → Bool) (lo : Nat) (hi : Option Nat) (greedy : Bool) (cap : Bool)

/-- Length of the maximal run of class characters at the head of the input. -/
def maxRun (p : Char → Bool) : List Char → Nat
  | [] => 0
  | c :: t => if p c then maxRun p t + 1 else 0

/-- The repetition counts a backtracking engine tries for a counted
single-character-class repetition, in preference order: `lo..top` ascending
when lazy, descending when greedy, where `top` is the maximal run capped by
`hi`. -/
def repCounts (lo : Nat) (hi : Option Nat) (greedy : Bool) (n : Nat) : List Nat :=
  let top := match hi with | none => n | some h => min h n
  if top < lo then []
  else
    let asc := (List.range (top - lo + 1)).map (lo + ·)
    if greedy then asc.reverse else asc

/-- Match a sequence of atoms anchored at the head of the input, with full
backtracking in the regex engine's preference order, structurally recursive
on a fuel bound (one unit per atom).  Returns the list of captured groups (in
pattern order) and the remaining input. -/
def matchAtomsF : Nat → List Atom → List Char → Option (List (List Char) × List Char)
  | 0, _, _ => none
  | _ + 1, [], s => some ([], s)
  | fuel + 1, .lit c :: rest, s =>
    match s with
    | [] => none
    | x :: xs => if x == c then matchAtomsF fuel rest xs else none
  | fuel + 1, .rep p lo hi greedy cap :: rest, s =>
    (repCounts lo hi greedy (maxRun p s)).findSome? fun k =>
      (matchAtomsF fuel rest (s.drop k)).map fun r =>
        (if cap then s.take k :: r.1 else r.1, r.2)

/-- Match a sequence of atoms anchored at the head of the input. -/
def matchAtoms (atoms : List Atom) (s : List Char) :
    Option (List (List Char) × List Char) :=
  matchAtomsF (atoms.length + 1) atoms s

/-- `re.search`: try the match at every position, leftmost first; returns the
captured groups of the first successful position. -/
def searchAtoms (atoms : List Atom) : List Char → Option (List (List Char))
  | [] => (matchAtoms atoms []).map (·.1)
  | c :: t =>
    match matchAtoms atoms (c :: t) with
    | some r => some r.1
    | none => searchAtoms atoms t

/-- `([A-Za-z\s&\.\'-]+?)\s*\|\s*([A-Za-z\s&\.\'-]+)`. -/
def teamPattern1 : List Atom :=
  [.rep teamClass 1 none false true, .rep isPyWS 0 none true false, .lit '|',
   .rep isPyWS 0 none true false, .rep teamClass 1 none true true]

/-- `([A-Za-z\s&\.\'-]+?)\s+-\s+([A-Za-z\s&\.\'-]+)`. -/
def teamPattern2 : List Atom :=
  [.rep teamClass 1 none false true, .rep isPyWS 1 none true false, .lit '-',
   .rep isPyWS 1 none true false, .rep teamClass 1 none true true]

/-- `([A-Za-z\s&\.\'-]{3,35})\s+([A-Za-z\s&\.\'-]{3,35})`. -/
def teamPattern3 : List Atom :=
  [.rep teamClass 3 (some 35) true true, .rep isPyWS 1 none true false,
   .rep teamClass 3 (some 35) true true]

/-- `extract_team_names`: remove times, replace `vs`/`v`/`against` by `|`,
then try the three patterns in order; for the first pattern that matches,
strip and clean both groups and return them if they validate, otherwise move
on to the next pattern. -/
def extract_team_names (text : List Char) : Option (String × String) :=
  let clean_text := subVs false (removeTimes text)
  [teamPattern1, teamPattern2, teamPattern3].findSome? fun pat =>
    match searchAtoms pat clean_text with
    | some [g1, g2] =>
      let home := clean_team_name (String.mk (pstripC g1))
      let away := clean_team_name (String.mk (pstripC g2))
      if validate_teams home away then some (home, away) else none
    | _ => none

/-- One fixture record: exactly the keys of the dicts built by
`parse_fixture_element` and the three generators.  There are no score fields
in this script — it extracts scheduled fixtures only. -/
structure Fixture where
  date : String
  time : String
  home_team : String
  away_team : String
  competition : String
  country : String
  status : String
  tv_info : String
  source : String
  type : String
deriving DecidableEq, Repr, Inhabited

/-- The finished/live markers that make `parse_fixture_element` skip an
element. -/
def finishedMarkers : List String := ["FINAL", "FT", "RESULT", "ENDED", "LIVE"]

/-- The literal score substrings that make `parse_fixture_element` skip an
element (the code's `['0-0', '1-1', '2-1', '3-0']`). -/
def scoreMarkers : List String := ["0-0", "1-1", "2-1", "3-0"]

/-- `parse_fixture_element`, applied to the element's
`get_text(strip=True)` result.  The whole body runs under `try/except` with
`return None` on any exception; the only possible exception is the
`self.competitions[competition]` lookup, modelled by the `none` branch of the
final match (claim C10 shows it is unreachable). -/
def parse_fixture_element (cal : Calendar) (source_name : String) (text : String) :
    Option Fixture :=
  if text.length < 15 then none
  else if finishedMarkers.any (fun w => containsSub w (upperS text)) then none
  else if scoreMarkers.any (fun w => containsSub w text) then none
  else
    match findTime text.data with
    | none => none
    | some t =>
      match extract_team_names text.data with
      | none => none
      | some (home_team, away_team) =>
        let competition := identify_competition_from_teams home_team away_team
        match competitions.lookup competition with
        | none => none
        | some cd =>
          some { date := get_upcoming_match_date cal, time := String.mk t,
                 home_team, away_team, competition, country := cd.country,
                 status := "Scheduled", tv_info := get_tv_info competition,
                 source := source_name, type := "real_extraction" }

/-! ## Fixture generation (`generate_comprehensive_fixtures` and helpers) -/

/-- The loop body shared verbatim by `generate_weekend_fixtures` and
`generate_european_fixtures`: for each competition (with its `enumerate`
index) that exists and has at least four teams, two matches with
deterministically rotated team indices.  (Python's `teams[idx]` and
`times[idx]` are total here via `getD`; the indices are always in range
because they are taken modulo the length.) -/
def genLeagueMatches (day : Day) (times comps : List String) : List Fixture :=
  comps.enum.flatMap fun (i, comp) =>
    match competitions.lookup comp with
    | none => []
    | some d =>
      if d.teams.isEmpty then []
      else if 4 ≤ d.teams.length then
        (List.range 2).map fun match_num =>
          let home_idx := (i * 4 + match_num * 2) % d.teams.length
          let away_idx := (i * 4 + match_num * 2 + 1) % d.teams.length
          { date := day.longDate, time := times.getD (match_num % times.length) "",
            home_team := d.teams.getD home_idx "", away_team := d.teams.getD away_idx "",
            competition := comp, country := d.country, status := "Scheduled",
            tv_info := get_tv_info comp, source := "Daily Football List", type := "generated" }
      else []

/-- `generate_weekend_fixtures`. -/
def generate_weekend_fixtures (day : Day) : List Fixture :=
  if day.dayName == "Saturday" then
    genLeagueMatches day ["12:30", "15:00", "17:30"]
      ["Premier League", "La Liga", "Serie A", "Bundesliga", "Ligue 1"]
  else
    genLeagueMatches day ["14:00", "16:30", "19:00"] ["Premier League", "La Liga", "Serie A"]

/-- `generate_european_fixtures`. -/
def generate_european_fixtures (day : Day) : List Fixture :=
  genLeagueMatches day ["17:45", "20:00"]
    ["UEFA Champions League", "UEFA Europa League", "UEFA Conference League"]

/-- `generate_weekday_fixtures`.  (With the concrete competition table the
parent league's first eight teams are never empty, so Python's
`% len(teams)` never divides by zero; Lean's `%` is total.) -/
def generate_weekday_fixtures (day : Day) : List Fixture :=
  let cup_competitions := ["FA Cup", "Copa del Rey", "Coppa Italia", "DFB-Pokal", "Coupe de France"]
  let times := ["19:45", "20:00"]
  let selected_cups := cup_competitions.take 2
  selected_cups.enum.flatMap fun (i, comp) =>
    match competitions.lookup comp with
    | none => []
    | some d =>
      match get_parent_league comp with
      | none => []
      | some parent_league =>
        match competitions.lookup parent_league with
        | none => []
        | some pd =>
          let teams := pd.teams.take 8
          let home_idx := (i * 2) % teams.length
          let away_idx := (i * 2 + 1) % teams.length
          [{ date := day.longDate, time := times.getD (i % times.length) "",
             home_team := teams.getD home_idx "", away_team := teams.getD away_idx "",
             competition := comp, country := d.country, status := "Scheduled",
             tv_info := get_tv_info comp, source := "Daily Football List", type := "generated" }]

/-- `generate_comprehensive_fixtures`: for each of the next seven days, the
weekend, European-night, or weekday generator according to the day's name.
It is invoked unconditionally by `generate_daily_football_list` — there is no
minimum-record-count check anywhere in the script. -/
def generate_comprehensive_fixtures (cal : Calendar) : List Fixture :=
  (List.range 7).flatMap fun day_offset =>
    let day := cal.dayAt day_offset
    if day.dayName == "Saturday" || day.dayName == "Sunday" then
      generate_weekend_fixtures day
    else if day.dayName == "Tuesday" || day.dayName == "Wednesday" || day.dayName == "Thursday" then
      generate_european_fixtures day
    else
      generate_weekday_fixtures day

/-! ## Processing (`remove_duplicates`, `sort_fixtures`, `enhance_fixtures`) -/

/-- The deduplication key `f"{date}-{time}-{home_team}-{away_team}"`:
case-sensitive, no normalisation. -/
def dedupKey (f : Fixture) : String :=
  f.date ++ "-" ++ f.time ++ "-" ++ f.home_team ++ "-" ++ f.away_team

/-- The loop of `remove_duplicates` with its `seen` set (membership in a list
of strings is extensionally the Python set). -/
def removeDupAux (seen : List String) : List Fixture → List Fixture
  | [] => []
  | f :: rest =>
    if seen.contains (dedupKey f) then removeDupAux seen rest
    else f :: removeDupAux (dedupKey f :: seen) rest

/-- `remove_duplicates`. -/
def remove_duplicates (fixtures : List Fixture) : List Fixture :=
  removeDupAux [] fixtures

/-- The priority component of `sort_fixtures`' key:
`self.competitions.get(comp, {}).get('priority', 5)`. -/
def sortPriority (f : Fixture) : Nat :=
  match competitions.lookup f.competition with
  | some d => d.priority
  | none => 5

/-- The ordering of Python's `sorted(fixtures, key=…)`: lexicographic on
`(priority, date, time)` with code-point string comparison. -/
def fixtureLE (a b : Fixture) : Bool :=
  decide (sortPriority a < sortPriority b) ||
    (sortPriority a == sortPriority b &&
      (decide (a.date < b.date) ||
        (a.date == b.date && decide (a.time ≤ b.time))))

/-- `sort_fixtures`: Python's `sorted` is a stable sort; so is
`List.mergeSort`.  (The `try/except` around it can never fire: comparing
tuples of ints and strings raises nothing.) -/
def sort_fixtures (fixtures : List Fixture) : List Fixture :=
  fixtures.mergeSort fixtureLE

/-- A fixture after `enhance_fixtures`: the same dict plus the keys the
enhancement adds.  The `Option` fields are the keys that are *not* added when
the competition is unknown (downstream reads use `.get` with a default). -/
structure Enhanced where
  base : Fixture
  competition_type : Option String
  competition_color : Option String
  priority : Option Nat
  importance : Nat
  venue : String
deriving DecidableEq, Repr, Inhabited

/-- `calculate_match_importance`, as a function of the two dict entries it
reads: `fixture.get('competition', '')` and `fixture.get('priority', 5)`. -/
def calculate_match_importance (competition : String) (priority : Option Nat) : Nat :=
  if containsSub "Champions League" competition then 5
  else if containsSub "Europa League" competition || containsSub "Conference League" competition then 4
  else if priority.getD 5 == 1 then 4
  else if priority.getD 5 == 2 then 3
  else 2

/-- The body of the `enhance_fixtures` loop for one fixture. -/
def enhance_fixture (f : Fixture) : Enhanced :=
  match competitions.lookup f.competition with
  | some d =>
    { base := f, competition_type := some d.ctype, competition_color := some d.color,
      priority := some d.priority,
      importance := calculate_match_importance f.competition (some d.priority),
      venue := f.home_team ++ " Stadium" }
  | none =>
    { base := f, competition_type := none, competition_color := none, priority := none,
      importance := calculate_match_importance f.competition none,
      venue := f.home_team ++ " Stadium" }

/-- `enhance_fixtures`. -/
def enhance_fixtures (fixtures : List Fixture) : List Enhanced :=
  fixtures.map enhance_fixture

/-- `process_fixtures`: dedup, sort, enhance (empty in, empty out). -/
def process_fixtures (fixtures : List Fixture) : List Enhanced :=
  if fixtures.isEmpty then []
  else enhance_fixtures (sort_fixtures (remove_duplicates fixtures))

/-- `generate_daily_football_list`, as a function of the fixtures that Phase 1
(real extraction) produced: Phase 2 always appends the generated fixtures,
Phase 3 processes the concatenation, and the processed list is returned
(Phases 4–5, the export and the summary, are modelled separately). -/
def generate_daily_football_list (cal : Calendar) (real_fixtures : List Fixture) :
    List Enhanced :=
  let all_fixtures := real_fixtures ++ generate_comprehensive_fixtures cal
  process_fixtures all_fixtures

/-! ## Export (`export_daily_football_list`)

The DataFrame built from `export_data` is the pair (column list, row list):
pandas takes the columns from the keys of the first row dict (insertion
order), so an empty batch yields a DataFrame with no columns.  `to_csv`
(default `QUOTE_MINIMAL`) quotes a field iff it contains the delimiter, the
quote character, or a line-break character, doubling embedded quotes, and
terminates every line (header included) with `'\n'`.  `to_excel` writes the
header row and the data rows of the same DataFrame (cell styling is
presentation and not modelled). -/

/-- The export columns, in dict insertion order of `export_data`. -/
def exportHeaders : List String :=
  ["Date", "Time", "Competition", "Country", "Home Team", "Away Team", "Match", "Venue",
   "TV Coverage", "Importance", "Status", "Type", "Source"]

/-- One row of `export_data`. -/
def exportRow (e : Enhanced) : List String :=
  [e.base.date, e.base.time, e.base.competition, e.base.country, e.base.home_team,
   e.base.away_team, e.base.home_team ++ " vs " ++ e.base.away_team, e.venue, e.base.tv_info,
   String.mk (List.replicate e.importance '⭐'), e.base.status,
   e.competition_type.getD "", e.base.source]

/-- The DataFrame's columns: empty when the batch is empty (pandas takes the
columns from the first row dict). -/
def dfColumns (fixtures : List Enhanced) : List String :=
  if fixtures.isEmpty then [] else exportHeaders

/-- The DataFrame's data rows. -/
def dfRows (fixtures : List Enhanced) : List (List String) :=
  fixtures.map exportRow

/-- A written spreadsheet: header row and data rows. -/
structure Sheet where
  header : List String
  rows : List (List String)
deriving DecidableEq, Repr

/-- The content `df.to_excel` writes. -/
def excelSheet (fixtures : List Enhanced) : Sheet :=
  { header := dfColumns fixtures, rows := dfRows fixtures }

/-- Does `to_csv` (QUOTE_MINIMAL) quote this field? -/
def needsQuote (f : List Char) : Bool :=
  f.any fun c => c == ',' || c == '"' || c == '\n' || c == '\r'

/-- Double every quote character. -/
def escapeQ : List Char → List Char
  | [] => []
  | c :: t => if c == '"' then '"' :: '"' :: escapeQ t else c :: escapeQ t

/-- Serialize one CSV field. -/
def csvFieldC (f : List Char) : List Char :=
  if needsQuote f then '"' :: (escapeQ f ++ ['"']) else f

/-- Serialize one CSV line (fields joined by commas, no terminator). -/
def csvLineC : List (List Char) → List Char
  | [] => []
  | [f] => csvFieldC f
  | f :: fs => csvFieldC f ++ ',' :: csvLineC fs

/-- Serialize a list of rows, each line `'\n'`-terminated. -/
def csvJoin (rows : List (List String)) : List Char :=
  (rows.map fun r => csvLineC (r.map String.data) ++ ['\n']).flatten

/-- The text `df.to_csv(index=False)` writes: header line then data lines. -/
def csvText (fixtures : List Enhanced) : String :=
  String.mk (csvJoin (dfColumns fixtures :: dfRows fixtures))

/-! ### A total CSV reader (for the round-trip property) -/

/-- Read a quoted field after its opening quote: returns the field content
and the number of characters consumed (closing quote included; doubled quotes
decode to one quote; an unterminated field ends at the input's end). -/
def readQuotedN : List Char → List Char × Nat
  | [] => ([], 0)
  | c :: t =>
    if c == '"' then
      match t with
      | [] => ([], 1)
      | c2 :: t2 =>
        if c2 == '"' then
          let r := readQuotedN t2
          ('"' :: r.1, r.2 + 2)
        else ([], 1)
    else
      let r := readQuotedN t
      (c :: r.1, r.2 + 1)

/-- Read an unquoted field: everything up to the next `','` or `'\n'`. -/
def readUnquotedN : List Char → List Char × Nat
  | [] => ([], 0)
  | c :: t =>
    if c == ',' || c == '\n' then ([], 0)
    else
      let r := readUnquotedN t
      (c :: r.1, r.2 + 1)

/-- Read one field (quoted iff it starts with a quote). -/
def readFieldN : List Char → List Char × Nat
  | [] => ([], 0)
  | c :: t =>
    if c == '"' then
      let r := readQuotedN t
      (r.1, r.2 + 1)
    else readUnquotedN (c :: t)

/-- Read one CSV record (the list of its fields and the number of characters
consumed, terminator included), structurally recursive on a fuel bound (one
unit per field, so fuel exceeding the field count — in particular, exceeding
the input length — is always enough).  A stray character after a closing
quote — which the writer never produces — is skipped. -/
def parseRecordF : Nat → List Char → List String × Nat
  | 0, _ => ([], 0)
  | fuel + 1, s =>
    let fn := readFieldN s
    match s.drop fn.2 with
    | [] => ([String.mk fn.1], fn.2)
    | c :: t =>
      if c == ',' then
        let r := parseRecordF fuel t
        (String.mk fn.1 :: r.1, fn.2 + 1 + r.2)
      else if c == '\n' then ([String.mk fn.1], fn.2 + 1)
      else
        let r := parseRecordF fuel t
        (String.mk fn.1 :: r.1, fn.2 + 1 + r.2)

/-- Read one CSV record. -/
def parseRecord (s : List Char) : List String × Nat :=
  parseRecordF (s.length + 1) s

/-- Read all CSV records, structurally recursive on a fuel bound (one unit
per record; a record of a non-empty input always consumes at least one
character — `max … 1` makes that bound manifest). -/
def parseCsvF : Nat → List Char → List (List String)
  | 0, _ => []
  | _ + 1, [] => []
  | fuel + 1, c :: t =>
    let r := parseRecord (c :: t)
    r.1 :: parseCsvF fuel ((c :: t).drop (max r.2 1))

/-- Read all CSV records. -/
def parseCsv (s : List Char) : List (List String) :=
  parseCsvF s.length s

/-! ### File list, JSON export, summary, HTML report -/

/-- The four export formats, in the order their `try` blocks run. -/
inductive ExportFormat where
  | excel
  | csv
  | json
  | html
deriving DecidableEq, Repr

/-- The file name each format writer uses. -/
def exportFileName (cal : Calendar) : ExportFormat → String
  | .excel => "exports/Daily_Football_List_" ++ cal.timestamp ++ ".xlsx"
  | .csv => "exports/Daily_Football_List_" ++ cal.timestamp ++ ".csv"
  | .json => "exports/Daily_Football_List_" ++ cal.timestamp ++ ".json"
  | .html => "exports/Daily_Football_List_" ++ cal.timestamp ++ ".html"

/-- The `exported_files` list returned by `export_daily_football_list`: each
format writer runs in its own `try/except`; `fails f = true` means that
writer raised (and was caught), so only its own file is missing.  The file
contents are modelled by `excelSheet`, `csvText`, `jsonEnvelope` and
`htmlReport`. -/
def export_daily_football_list (cal : Calendar) (fails : ExportFormat → Bool)
    (_fixtures : List Enhanced) : List String :=
  (if fails .excel then [] else [exportFileName cal .excel]) ++
  (if fails .csv then [] else [exportFileName cal .csv]) ++
  (if fails .json then [] else [exportFileName cal .json]) ++
  (if fails .html then [] else [exportFileName cal .html])

/-- `self.platform_name`. -/
def platformName : String := "Daily Football List"

/-- `self.version`. -/
def versionStr : String := "1.0.0"

/-- `self.tagline`. -/
def taglineStr : String := "Your Complete Football Schedule Companion"

/-- The envelope object the JSON export dumps. -/
structure JsonEnvelope where
  platform : String
  version : String
  generated_at : String
  total_fixtures : Nat
  competitions_covered : Nat
  fixtures : List Enhanced
deriving DecidableEq, Repr

/-- The JSON export's content. -/
def jsonEnvelope (cal : Calendar) (fixtures : List Enhanced) : JsonEnvelope :=
  { platform := platformName, version := versionStr, generated_at := cal.isoNow,
    total_fixtures := fixtures.length,
    competitions_covered := ((fixtures.map fun e => e.base.competition).eraseDups).length,
    fixtures := fixtures }

/-- Increment a key's count in an insertion-ordered association list
(`counts[k] = counts.get(k, 0) + 1`). -/
def bumpCount : List (String × Nat) → String → List (String × Nat)
  | [], k => [(k, 1)]
  | (a, n) :: t, k => if a == k then (a, n + 1) :: t else (a, n) :: bumpCount t k

/-- Count fixtures grouped by a key, in first-seen order. -/
def countBy (key : Enhanced → String) (fixtures : List Enhanced) : List (String × Nat) :=
  fixtures.foldl (fun acc e => bumpCount acc (key e)) []

/-- The summary document written to `exports/platform_summary.json`. -/
structure Summary where
  platform_name : String
  version : String
  generated_at : String
  total_fixtures : Nat
  competitions_covered : Nat
  countries_covered : Nat
  competition_breakdown : List (String × Nat)
  country_breakdown : List (String × Nat)
  exported_files : List String
  total_competitions_supported : Nat
  data_sources_attempted : Nat
  export_formats : Nat
deriving DecidableEq, Repr

/-- `generate_platform_summary` (the returned/written summary dict; the
printed breakdown is console output, not file content). -/
def generate_platform_summary (cal : Calendar) (fixtures : List Enhanced)
    (exported_files : List String) : Summary :=
  let comp_counts := countBy (fun e => e.base.competition) fixtures
  let country_counts := countBy (fun e => e.base.country) fixtures
  { platform_name := platformName, version := versionStr, generated_at := cal.isoNow,
    total_fixtures := fixtures.length, competitions_covered := comp_counts.length,
    countries_covered := country_counts.length, competition_breakdown := comp_counts,
    country_breakdown := country_counts, exported_files := exported_files,
    total_competitions_supported := competitions.length, data_sources_attempted := 3,
    export_formats := 4 }

/-- `get_competition_css_class`'s table. -/
def cssClassMappings : List (String × String) :=
  [("UEFA Champions League", "champions-league"), ("UEFA Europa League", "europa-league"),
   ("Premier League", "premier-league"), ("La Liga", "la-liga"), ("Serie A", "serie-a"),
   ("Bundesliga", "bundesliga"), ("Ligue 1", "ligue-1")]

/-- `get_competition_css_class`. -/
def get_competition_css_class (competition : String) : String :=
  dget cssClassMappings competition "other"

/-- The head of `generate_html_report`'s template, up to `<tbody>` (braces of
the CSS are written `\x7b`/`\x7d`, apostrophes `\x27`; in Python they are the
doubled-brace escapes of the f-string). -/
def htmlHead : String :=
  "\n<!DOCTYPE html>\n<html lang=\"en\">\n<head>\n    <meta charset=\"UTF-8\">\n    <meta name=\"viewport\" content=\"width=device-width, initial-scale=1.0\">\n    <title>" ++ platformName ++ " - Your Complete Football Schedule</title>\n    <style>
        body \x7b
            font-family: \x27Segoe UI\x27, Tahoma, Geneva, Verdana, sans-serif;
            margin: 0;
            padding: 20px;
            background: linear-gradient(135deg, #667eea 0%, #764ba2 100%);
            color: #333;
        \x7d
        .container \x7b
            max-width: 1200px;
            margin: 0 auto;
            background: white;
            border-radius: 15px;
            box-shadow: 0 20px 40px rgba(0,0,0,0.1);
            overflow: hidden;
        \x7d
        .header \x7b
            background: linear-gradient(135deg, #2c3e50 0%, #3498db 100%);
            color: white;
            padding: 30px;
            text-align: center;
        \x7d
        .header h1 \x7b
            margin: 0;
            font-size: 2.5em;
            font-weight: 700;
        \x7d
        .header p \x7b
            margin: 10px 0 0 0;
            font-size: 1.2em;
            opacity: 0.9;
        \x7d
        .stats \x7b
            display: flex;
            justify-content: space-around;
            padding: 20px;
            background: #f8f9fa;
            border-bottom: 1px solid #dee2e6;
        \x7d
        .stat \x7b
            text-align: center;
        \x7d
        .stat-number \x7b
            font-size: 2em;
            font-weight: bold;
            color: #3498db;
        \x7d
        .stat-label \x7b
            color: #666;
            margin-top: 5px;
        \x7d
        .fixtures-table \x7b
            width: 100%;
            border-collapse: collapse;
            margin: 0;
        \x7d
        .fixtures-table th \x7b
            background: #34495e;
            color: white;
            padding: 15px 10px;
            text-align: left;
            font-weight: 600;
        \x7d
        .fixtures-table td \x7b
            padding: 12px 10px;
            border-bottom: 1px solid #eee;
        \x7d
        .fixtures-table tr:hover \x7b
            background: #f8f9fa;
        \x7d
        .competition \x7b
            font-weight: 600;
            padding: 4px 8px;
            border-radius: 4px;
            color: white;
            font-size: 0.9em;
        \x7d
        .champions-league \x7b background: #0066CC; \x7d
        .europa-league \x7b background: #FF6600; \x7d
        .premier-league \x7b background: #3D195B; \x7d
        .la-liga \x7b background: #FF4444; \x7d
        .serie-a \x7b background: #0066AA; \x7d
        .bundesliga \x7b background: #CC0000; \x7d
        .ligue-1 \x7b background: #0066CC; \x7d
        .other \x7b background: #666; \x7d
        .match \x7b
            font-weight: 600;
            color: #2c3e50;
        \x7d
        .time \x7b
            font-weight: 600;
            color: #e74c3c;
        \x7d
        .importance \x7b
            font-size: 1.2em;
        \x7d
        .footer \x7b
            text-align: center;
            padding: 30px;
            background: #2c3e50;
            color: white;
        \x7d
        @media (max-width: 768px) \x7b
            .stats \x7b flex-direction: column; \x7d
            .stat \x7b margin: 10px 0; \x7d
            .fixtures-table \x7b font-size: 0.9em; \x7d
            .fixtures-table th, .fixtures-table td \x7b padding: 8px 5px; \x7d
        \x7d
    </style>
</head>
<body>
    <div class=\"container\">
        <div class=\"header\">
            <h1>⚽ "

/-- One `<tr>` of the HTML report (the body of the `df.iterrows()` loop). -/
def htmlRow (e : Enhanced) : String :=
  "\n                <tr>\n                    <td>" ++ e.base.date ++
  "</td>\n                    <td class=\"time\">" ++ e.base.time ++
  "</td>\n                    <td><span class=\"competition " ++
  get_competition_css_class e.base.competition ++ "\">" ++ e.base.competition ++
  "</span></td>\n                    <td class=\"match\">" ++
  (e.base.home_team ++ " vs " ++ e.base.away_team) ++
  "</td>\n                    <td>" ++ e.base.tv_info ++
  "</td>\n                    <td class=\"importance\">" ++
  String.mk (List.replicate e.importance '⭐') ++
  "</td>\n                </tr>\n            "

/-- `generate_html_report`: the standalone report page.  Its table rows come
from the same DataFrame as the exports, i.e. from the batch in order. -/
def generate_html_report (cal : Calendar) (fixtures : List Enhanced) : String :=
  htmlHead ++ platformName ++ "</h1>\n            <p>" ++ taglineStr ++
  "</p>\n            <p>Generated on " ++ cal.prettyNow ++
  "</p>\n        </div>\n        \n        <div class=\"stats\">\n            <div class=\"stat\">\n                <div class=\"stat-number\">" ++
  toString fixtures.length ++
  "</div>\n                <div class=\"stat-label\">Total Fixtures</div>\n            </div>\n            <div class=\"stat\">\n                <div class=\"stat-number\">" ++
  toString ((fixtures.map fun e => e.base.competition).eraseDups).length ++
  "</div>\n                <div class=\"stat-label\">Competitions</div>\n            </div>\n            <div class=\"stat\">\n                <div class=\"stat-number\">" ++
  toString ((fixtures.map fun e => e.base.country).eraseDups).length ++
  "</div>\n                <div class=\"stat-label\">Countries</div>\n            </div>\n            <div class=\"stat\">\n                <div class=\"stat-number\">7</div>\n                <div class=\"stat-label\">Days Covered</div>\n            </div>\n        </div>\n        \n        <table class=\"fixtures-table\">\n            <thead>\n                <tr>\n                    <th>Date</th>\n                    <th>Time</th>\n                    <th>Competition</th>\n                    <th>Match</th>\n                    <th>TV Coverage</th>\n                    <th>Importance</th>\n                </tr>\n            </thead>\n            <tbody>\n        " ++
  String.join (fixtures.map htmlRow) ++
  "\n            </tbody>\n        </table>\n        \n        <div class=\"footer\">\n            <p><strong>" ++
  platformName ++ " v" ++ versionStr ++
  "</strong></p>\n            <p>Your ultimate football schedule companion</p>\n            <p>Covering all major European competitions and leagues</p>\n        </div>\n    </div>\n</body>\n</html>\n        "

/-! ## The whole run and the top-level `main` -/

/-- The three fetch sources (url, name), in order. -/
def fixtureSources : List (String × String) :=
  [("https://www.espn.com/soccer/fixtures", "ESPN"),
   ("https://www.bbc.com/sport/football/fixtures", "BBC Sport"),
   ("https://www.skysports.com/football/fixtures", "Sky Sports")]

/-- `extract_real_fixtures` / `parse_website_fixtures`: `resp url` is the list
of `get_text(strip=True)` results of the elements the selectors pick (in
selection order, already capped at 20 per selector), or `none` when the
request fails or the status is not 200 (that source then contributes no
fixtures and the loop continues). -/
def extract_real_fixtures (cal : Calendar) (resp : String → Option (List String)) :
    List Fixture :=
  fixtureSources.flatMap fun src =>
    match resp src.1 with
    | none => []
    | some texts => texts.filterMap (parse_fixture_element cal src.2)

/-- Everything one run produces: the returned batch and the contents of every
written file. -/
structure RunOutput where
  fixtures : List Enhanced
  excel : Sheet
  csv : String
  json : JsonEnvelope
  html : String
  files : List String
  summary : Summary

/-- One full run of the platform, as a function of the system clock and the
network responses (all file writers succeed).  Nothing else is consulted: the
script imports no randomness source, and the `ThreadPoolExecutor` import is
never used. -/
def run (cal : Calendar) (resp : String → Option (List String)) : RunOutput :=
  let real := extract_real_fixtures cal resp
  let processed := generate_daily_football_list cal real
  let files := export_daily_football_list cal (fun _ => false) processed
  { fixtures := processed, excel := excelSheet processed, csv := csvText processed,
    json := jsonEnvelope cal processed, html := generate_html_report cal processed,
    files := files, summary := generate_platform_summary cal processed files }

/-- The observable outcome of `main()`. -/
structure MainOutcome where
  /-- Did an exception escape `main`? -/
  propagated : Bool
  /-- Files written by the exception handler itself. -/
  handlerFiles : List String
  /-- Lines printed by `main` itself. -/
  messages : List String
deriving DecidableEq, Repr

/-- `main()`: the `try` block runs the platform; `result` is its outcome
(`.error e` when an unexpected exception escaped all inner handlers, with `e`
the exception's text).  The `except` block only prints two messages: it
writes no error-report file and attempts no placeholder export, and it
swallows the exception. -/
def mainModel (result : Except String (List Enhanced)) : MainOutcome :=
  match result with
  | .ok fixtures =>
    { propagated := false, handlerFiles := [],
      messages :=
        ["\n🚀 SUCCESS! Generated " ++ toString fixtures.length ++
           " fixtures for your Daily Football List!",
         "🏆 Your Livescore clone is ready!"] }
  | .error e =>
    { propagated := false, handlerFiles := [],
      messages :=
        ["\n❌ Platform generation failed: " ++ e,
         "💡 Check the error logs and try again."] }

/-! ## Concrete inputs used by witnesses and counterexamples -/

/-- A concrete week starting on Monday, 12 October 2026. -/
def week0 : List Day :=
  [⟨0, "Monday", "Monday, 12 October 2026"⟩,
   ⟨1, "Tuesday", "Tuesday, 13 October 2026"⟩,
   ⟨2, "Wednesday", "Wednesday, 14 October 2026"⟩,
   ⟨3, "Thursday", "Thursday, 15 October 2026"⟩,
   ⟨4, "Friday", "Friday, 16 October 2026"⟩,
   ⟨5, "Saturday", "Saturday, 17 October 2026"⟩,
   ⟨6, "Sunday", "Sunday, 18 October 2026"⟩,
   ⟨0, "Monday", "Monday, 19 October 2026"⟩]

/-- A concrete clock reading: Monday, 12 October 2026, 06:00 UTC. -/
def cal0 : Calendar :=
  { now := ⟨0, "Monday", "Monday, 12 October 2026"⟩,
    dayAt := fun n => week0.getD n default,
    timestamp := "20261012_060000", isoNow := "2026-10-12T06:00:00",
    prettyNow := "Monday, 12 October 2026 at 06:00 UTC" }

/-- A realistically shaped really-extracted fixture. -/
def mkReal (home away time : String) : Fixture :=
  { date := "Saturday, 17 October 2026", time := time, home_team := home, away_team := away,
    competition := "Premier League", country := "England", status := "Scheduled",
    tv_info := "Sky Sports, BBC Sport", source := "ESPN", type := "real_extraction" }

/-- Five really-extracted fixtures with pairwise distinct deduplication keys,
none of which collides with a generated fixture's key. -/
def real5 : List Fixture :=
  [mkReal "Arsenal" "Chelsea" "09:00", mkReal "Liverpool" "Everton" "09:05",
   mkReal "Fulham" "Brentford" "09:10", mkReal "Wolves" "Everton" "09:15",
   mkReal "Burnley" "Luton Town" "09:20"]

/-- Every network request fails. -/
def respNone : String → Option (List String) := fun _ => none

/-- A failure oracle where only the CSV writer raises. -/
def failsCsvOnly : ExportFormat → Bool := fun f => f == ExportFormat.csv

/-- A concrete enhanced fixture (for export witnesses). -/
def e0 : Enhanced := enhance_fixture (mkReal "Arsenal" "Chelsea" "09:00")

/-- A self-match record (`home_team = away_team`). -/
def selfMatchFixture : Fixture := mkReal "Arsenal" "Arsenal" "10:00"

/-- Two records whose composite keys differ only in the case of `home_team`. -/
def upperCaseFixture : Fixture := mkReal "ARSENAL" "Chelsea" "10:00"

/-- See `upperCaseFixture`. -/
def lowerCaseFixture : Fixture := mkReal "arsenal" "Chelsea" "10:00"

/-! ## Specification-level predicates used to state the claims -/

/-- Does the string match `\d{1,2}:\d{2}` exactly (an `HH:MM` kickoff time)? -/
def isHHMM : List Char → Bool
  | [a, b, c, d] => a.isDigit && b == ':' && c.isDigit && d.isDigit
  | [a, b, c, d, e] => a.isDigit && b.isDigit && c == ':' && d.isDigit && e.isDigit
  | _ => false

/-- Does the string end in a (Python) whitespace character? -/
def endsInWS (s : String) : Bool :=
  match s.data.getLast? with
  | some c => isPyWS c
  | none => false

/-! ## Helper lemmas -/

theorem contains_eq_true_iff {l : List String} {a : String} :
    l.contains a = true ↔ a ∈ l := by
  simp [List.contains, List.elem_iff]

theorem removeDupAux_sublist (seen : List String) (l : List Fixture) :
    (removeDupAux seen l).Sublist l := by
  induction l generalizing seen with
  | nil => simp [removeDupAux]
  | cons f rest ih =>
    simp only [removeDupAux]
    split
    · exact (ih seen).cons f
    · exact (ih _).cons₂ f

theorem not_seen_of_mem_removeDupAux {seen : List String} {l : List Fixture} {f : Fixture}
    (hf : f ∈ removeDupAux seen l) : dedupKey f ∉ seen := by
  induction l generalizing seen with
  | nil => simp [removeDupAux] at hf
  | cons g rest ih =>
    simp only [removeDupAux] at hf
    split at hf
    · exact ih hf
    · rcases List.mem_cons.1 hf with rfl | hmem
      · intro hin
        rename_i hcon
        exact hcon (contains_eq_true_iff.2 hin)
      · intro hin
        exact ih hmem (List.mem_cons_of_mem _ hin)

theorem removeDupAux_pairwise (seen : List String) (l : List Fixture) :
    (removeDupAux seen l).Pairwise (fun a b => dedupKey a ≠ dedupKey b) := by
  induction l generalizing seen with
  | nil => simp [removeDupAux]
  | cons f rest ih =>
    simp only [removeDupAux]
    split
    · exact ih seen
    · refine List.Pairwise.cons ?_ (ih _)
      intro b hb hEq
      exact not_seen_of_mem_removeDupAux hb (hEq ▸ List.mem_cons_self _ _)

theorem mem_removeDupAux_append (g : Fixture) (rest : List Fixture) (real : List Fixture)
    (seen : List String) (hseen : ∀ s ∈ seen, s ≠ dedupKey g)
    (hreal : ∀ r ∈ real, dedupKey r ≠ dedupKey g) :
    g ∈ removeDupAux seen (real ++ g :: rest) := by
  induction real generalizing seen with
  | nil =>
    simp only [List.nil_append, removeDupAux]
    rw [if_neg (fun hcon => hseen _ (contains_eq_true_iff.1 hcon) rfl)]
    exact List.mem_cons_self _ _
  | cons r real' ih =>
    simp only [List.cons_append, removeDupAux]
    split
    · exact ih seen hseen (fun x hx => hreal x (List.mem_cons_of_mem _ hx))
    · refine List.mem_cons_of_mem _ (ih _ ?_ (fun x hx => hreal x (List.mem_cons_of_mem _ hx)))
      intro s hs
      rcases List.mem_cons.1 hs with rfl | hmem
      · exact hreal r (List.mem_cons_self _ _)
      · exact hseen s hmem

/-! ## Claim C2 -/

/-- Claim C2 (counterexample): for the text `"Arsenal 2 - 1 Chelsea"` of a
`<div class="match">` element, extraction yields no record at all — the text
has no `HH:MM` kickoff time, so `parse_fixture_element` returns `None` (and
this script's records carry no score fields anyway), contradicting the
claimed record with `home_score=2, away_score=1`. -/
theorem c2_counterexample :
    parse_fixture_element cal0 "ESPN" "Arsenal 2 - 1 Chelsea" = none := by decide

/-- Claim C2 (amended): for input markup containing the text
`"Arsenal 2 - 1 Chelsea"` inside a `div` of class `match`, extraction yields
no record for that element, whatever the clock and the source: the element
text lacks an `HH:MM` time and is rejected; this script extracts upcoming
fixtures only and never produces score fields. -/
theorem c2_amended (cal : Calendar) (source_name : String) :
    parse_fixture_element cal source_name "Arsenal 2 - 1 Chelsea" = none := rfl

/-! ## Claim C3 -/

/-- Claim C3 (counterexample): the deduplicator keeps a record whose
`home_team` equals its `away_team` (no self-match dropping exists in
`remove_duplicates`), and keeps two records whose composite keys differ only
in the case of `home_team` (the key is case-sensitive). -/
theorem c3_counterexample :
    remove_duplicates [selfMatchFixture] = [selfMatchFixture] ∧
      remove_duplicates [upperCaseFixture, lowerCaseFixture] =
        [upperCaseFixture, lowerCaseFixture] := by
  constructor <;> decide

/-- Claim C3 (amended): for every input sequence, `remove_duplicates` returns
a subsequence preserving first-seen order in which no two records share the
exact (case-sensitive) composite key `date-time-home_team-away_team`;
records with `home_team = away_team` are not treated specially. -/
theorem c3_amended (fixtures : List Fixture) :
    (remove_duplicates fixtures).Sublist fixtures ∧
      (remove_duplicates fixtures).Pairwise (fun a b => dedupKey a ≠ dedupKey b) :=
  ⟨removeDupAux_sublist [] fixtures, removeDupAux_pairwise [] fixtures⟩

/-! ## Claim C4 -/

/-- Claim C4 (counterexample): when an unexpected exception reaches `main`'s
handler, no error-report file is written and no placeholder export is
attempted — the handler leaves no file artifact (it only prints); the
exception is not propagated. -/
theorem c4_counterexample :
    (mainModel (Except.error "boom")).handlerFiles = [] ∧
      (mainModel (Except.error "boom")).propagated = false :=
  ⟨rfl, rfl⟩

/-- Claim C4 (amended): if an unexpected exception escapes all inner
handlers, the top-level `main` catches it and does not propagate it (the
process exits normally), but it writes no error-report file and attempts no
placeholder export — it only prints two error messages. -/
theorem c4_amended (e : String) :
    (mainModel (Except.error e)).propagated = false ∧
      (mainModel (Except.error e)).handlerFiles = [] ∧
      (mainModel (Except.error e)).messages =
        ["\n❌ Platform generation failed: " ++ e,
         "💡 Check the error logs and try again."] :=
  ⟨rfl, rfl, rfl⟩

/-! ## Claim C6 -/

/-- Claim C6: a failure in any one export-format writer does not prevent the
remaining format writers from being attempted: for every failure oracle and
every format whose writer does not fail, that format's file is in the list of
successfully written files the exporter returns. -/
theorem c6_fault_isolated (cal : Calendar) (fails : ExportFormat → Bool)
    (fixtures : List Enhanced) (fmt : ExportFormat) (h : fails fmt = false) :
    exportFileName cal fmt ∈ export_daily_football_list cal fails fixtures := by
  cases fmt <;> simp [export_daily_football_list, h]

/-- Witness for C6: with only the CSV writer failing, the Excel file is still
written. -/
theorem c6_witness :
    exportFileName cal0 ExportFormat.excel ∈
      export_daily_football_list cal0 failsCsvOnly [] :=
  c6_fault_isolated cal0 failsCsvOnly [] ExportFormat.excel rfl

/-! ## Claim C8 -/

/-- Claim C8: the run is deterministic in its inputs — two runs with equal
system-clock readings and pointwise-equal network responses produce equal
record batches and equal exported file contents (spreadsheet, CSV, JSON,
HTML, summary); the model consults no other input. -/
theorem c8_deterministic (cal₁ cal₂ : Calendar) (resp₁ resp₂ : String → Option (List String))
    (hcal : cal₁ = cal₂) (hresp : ∀ url, resp₁ url = resp₂ url) :
    run cal₁ resp₁ = run cal₂ resp₂ := by
  subst hcal
  have h : resp₁ = resp₂ := funext hresp
  subst h
  rfl

/-- Witness for C8 at concrete inputs (all network calls fail). -/
theorem c8_witness : run cal0 respNone = run cal0 respNone :=
  c8_deterministic cal0 cal0 respNone respNone rfl (fun _ => rfl)

/-! ## Claim C10 -/

theorem lookup_isSome_of_mem {l : List (String × CompData)} {p : String × CompData}
    (hp : p ∈ l) : (l.lookup p.1).isSome = true := by
  induction l with
  | nil => simp at hp
  | cons q t ih =>
    obtain ⟨k, v⟩ := q
    rcases List.mem_cons.1 hp with rfl | hmem
    · simp [List.lookup]
    · by_cases hb : (p.1 == k) = true
      · simp [List.lookup, hb]
      · rw [Bool.not_eq_true] at hb
        simp only [List.lookup, hb]
        exact ih hmem

/-- The predicate of the `identify_competition_from_teams` loop. -/
theorem c10_find_pred (home_team away_team : String) :
    identify_competition_from_teams home_team away_team =
      match competitions.find? (fun p =>
        !p.2.teams.isEmpty &&
          (p.2.teams.contains home_team || p.2.teams.contains away_team)) with
      | some p => p.1
      | none => "Premier League" := rfl

/-- Claim C10: competition identification is total over the competitions
table — for every pair of team names the identified competition is a key of
`self.competitions` (so the `self.competitions[competition]['country']`
lookup in `parse_fixture_element` can never raise), and when neither team
occurs in any competition's team list the result defaults to
`"Premier League"`. -/
theorem c10_competition_total (home_team away_team : String) :
    (competitions.lookup (identify_competition_from_teams home_team away_team)).isSome
        = true ∧
      ((∀ p ∈ competitions, p.2.teams.isEmpty = false →
          p.2.teams.contains home_team = false ∧ p.2.teams.contains away_team = false) →
        identify_competition_from_teams home_team away_team = "Premier League") := by
  constructor
  · unfold identify_competition_from_teams
    cases hf : competitions.find? (fun p =>
        !p.2.teams.isEmpty &&
          (p.2.teams.contains home_team || p.2.teams.contains away_team)) with
    | none => decide
    | some p => exact lookup_isSome_of_mem (List.mem_of_find?_eq_some hf)
  · intro h
    unfold identify_competition_from_teams
    have hnone : competitions.find? (fun p =>
        !p.2.teams.isEmpty &&
          (p.2.teams.contains home_team || p.2.teams.contains away_team)) = none := by
      refine List.find?_eq_none.2 ?_
      intro p hp hcon
      simp only [Bool.and_eq_true, Bool.not_eq_true', Bool.or_eq_true] at hcon
      obtain ⟨hne, hor⟩ := hcon
      obtain ⟨hh, ha⟩ := h p hp hne
      rcases hor with hc | hc
      · rw [hh] at hc; exact Bool.noConfusion hc
      · rw [ha] at hc; exact Bool.noConfusion hc
    rw [hnone]

/-- Witness for C10: two unknown teams default to `"Premier League"`. -/
theorem c10_witness :
    identify_competition_from_teams "NoSuchTeam" "AlsoNoSuchTeam" = "Premier League" :=
  (c10_competition_total "NoSuchTeam" "AlsoNoSuchTeam").2 (by decide)

/-! ## Claim C1 -/

theorem type_of_mem_genLeague {day : Day} {times comps : List String} {f : Fixture}
    (hf : f ∈ genLeagueMatches day times comps) : f.type = "generated" := by
  unfold genLeagueMatches at hf
  obtain ⟨⟨i, comp⟩, -, hin⟩ := List.mem_flatMap.1 hf
  dsimp only at hin
  cases hlook : competitions.lookup comp with
  | none => simp [hlook] at hin
  | some d =>
    simp only [hlook] at hin
    split_ifs at hin with h1 h2
    · simp at hin
    · obtain ⟨m, -, rfl⟩ := List.mem_map.1 hin
      rfl
    · simp at hin

theorem type_of_mem_weekday {day : Day} {f : Fixture}
    (hf : f ∈ generate_weekday_fixtures day) : f.type = "generated" := by
  unfold generate_weekday_fixtures at hf
  obtain ⟨⟨i, comp⟩, -, hin⟩ := List.mem_flatMap.1 hf
  dsimp only at hin
  cases h1 : competitions.lookup comp with
  | none => simp [h1] at hin
  | some d =>
    simp only [h1] at hin
    cases h2 : get_parent_league comp with
    | none => simp [h2] at hin
    | some parent =>
      simp only [h2] at hin
      cases h3 : competitions.lookup parent with
      | none => simp [h3] at hin
      | some pd =>
        simp only [h3, List.mem_singleton] at hin
        subst hin
        rfl

theorem type_of_mem_comprehensive {cal : Calendar} {f : Fixture}
    (hf : f ∈ generate_comprehensive_fixtures cal) : f.type = "generated" := by
  unfold generate_comprehensive_fixtures at hf
  obtain ⟨off, -, hin⟩ := List.mem_flatMap.1 hf
  dsimp only at hin
  split_ifs at hin with h1 h2
  · unfold generate_weekend_fixtures at hin
    split_ifs at hin <;> exact type_of_mem_genLeague hin
  · unfold generate_european_fixtures at hin
    exact type_of_mem_genLeague hin
  · exact type_of_mem_weekday hin

theorem weekday_head (day : Day) : ∃ g t, generate_weekday_fixtures day = g :: t :=
  ⟨_, _, rfl⟩

theorem weekend_head (day : Day) : ∃ g t, generate_weekend_fixtures day = g :: t := by
  unfold generate_weekend_fixtures
  split_ifs
  · exact ⟨_, _, rfl⟩
  · exact ⟨_, _, rfl⟩

theorem european_head (day : Day) : ∃ g t, generate_european_fixtures day = g :: t :=
  ⟨_, _, rfl⟩

theorem comprehensive_head (cal : Calendar) :
    ∃ g t, generate_comprehensive_fixtures cal = g :: t := by
  unfold generate_comprehensive_fixtures
  rw [show List.range 7 = [0, 1, 2, 3, 4, 5, 6] from rfl, List.flatMap_cons]
  simp only []
  by_cases h1 : ((cal.dayAt 0).dayName == "Saturday" || (cal.dayAt 0).dayName == "Sunday") = true
  · obtain ⟨g, tl, hgt⟩ := weekend_head (cal.dayAt 0)
    exact ⟨g, tl ++ _, by rw [if_pos h1, hgt, List.cons_append]⟩
  · by_cases h2 : ((cal.dayAt 0).dayName == "Tuesday" || (cal.dayAt 0).dayName == "Wednesday" ||
        (cal.dayAt 0).dayName == "Thursday") = true
    · obtain ⟨g, tl, hgt⟩ := european_head (cal.dayAt 0)
      exact ⟨g, tl ++ _, by rw [if_neg h1, if_pos h2, hgt, List.cons_append]⟩
    · obtain ⟨g, tl, hgt⟩ := weekday_head (cal.dayAt 0)
      exact ⟨g, tl ++ _, by rw [if_neg h1, if_neg h2, hgt, List.cons_append]⟩

theorem enhance_fixture_base (f : Fixture) : (enhance_fixture f).base = f := by
  unfold enhance_fixture
  cases competitions.lookup f.competition <;> rfl

/-- Claim C1 (counterexample): a run in which real extraction yielded five
records still gets synthetic fixtures appended — the final batch contains
records of type `"generated"`, contradicting "for every run in which
extraction yields 5 or more records, no generated records are added". -/
theorem c1_counterexample :
    5 ≤ real5.length ∧
      (generate_daily_football_list cal0 real5).any
        (fun e => e.base.type == "generated") = true := by
  refine ⟨by decide, List.any_eq_true.2 ?_⟩
  obtain ⟨g, tl, hgen⟩ := comprehensive_head cal0
  have hgmem_gen : g ∈ generate_comprehensive_fixtures cal0 := by
    rw [hgen]; exact List.mem_cons_self _ _
  have hdedup : g ∈ remove_duplicates (real5 ++ generate_comprehensive_fixtures cal0) := by
    rw [hgen]
    exact mem_removeDupAux_append g tl real5 [] (by simp)
      (fun r hr => (by decide : ∀ r ∈ real5, ∀ g ∈ generate_comprehensive_fixtures cal0,
        dedupKey r ≠ dedupKey g) r hr g hgmem_gen)
  refine ⟨enhance_fixture g, ?_, ?_⟩
  · unfold generate_daily_football_list process_fixtures
    rw [if_neg (by rw [hgen]; simp)]
    exact List.mem_map_of_mem _ (List.mem_mergeSort.2 hdedup)
  · simp [enhance_fixture_base, type_of_mem_comprehensive hgmem_gen]

/-- Claim C1 (amended): `generate_comprehensive_fixtures` is invoked
unconditionally on every run — there is no minimum-record-count check — and
its output is appended to the extracted records before deduplication.  In
particular, even when extraction yields 5 or more records, the final batch
still contains generated records (whenever no extracted record happens to
collide with a generated record's deduplication key). -/
theorem c1_amended (real_fixtures : List Fixture) (cal : Calendar)
    (_hlen : 5 ≤ real_fixtures.length)
    (hkeys : ∀ r ∈ real_fixtures, ∀ g ∈ generate_comprehensive_fixtures cal,
      dedupKey r ≠ dedupKey g) :
    ∃ e ∈ generate_daily_football_list cal real_fixtures, e.base.type = "generated" := by
  obtain ⟨g, tl, hgen⟩ := comprehensive_head cal
  have hgmem_gen : g ∈ generate_comprehensive_fixtures cal := by
    rw [hgen]; exact List.mem_cons_self _ _
  have hdedup :
      g ∈ remove_duplicates (real_fixtures ++ generate_comprehensive_fixtures cal) := by
    rw [hgen]
    exact mem_removeDupAux_append g tl real_fixtures [] (by simp)
      (fun r hr => hkeys r hr g hgmem_gen)
  have hsorted : g ∈ sort_fixtures
      (remove_duplicates (real_fixtures ++ generate_comprehensive_fixtures cal)) :=
    List.mem_mergeSort.2 hdedup
  refine ⟨enhance_fixture g, ?_, ?_⟩
  · unfold generate_daily_football_list process_fixtures
    have hne : (real_fixtures ++ generate_comprehensive_fixtures cal).isEmpty = false := by
      rw [hgen]; simp
    rw [if_neg (by simp [hne])]
    exact List.mem_map_of_mem _ hsorted
  · rw [enhance_fixture_base]
    exact type_of_mem_comprehensive hgmem_gen

/-- Witness for C1 (amended) at a concrete run with five extracted records. -/
theorem c1_witness :
    ∃ e ∈ generate_daily_football_list cal0 real5, e.base.type = "generated" :=
  c1_amended real5 cal0 (by decide) (by decide)

/-! ## Claim C9 -/

theorem timeMatchAt_isHHMM {s t : List Char} (h : timeMatchAt s = some t) :
    isHHMM t = true := by
  unfold timeMatchAt at h
  split at h
  · split_ifs at h with h1 h2
    · injection h with h'
      subst h'
      simpa [isHHMM] using h1
    · injection h with h'
      subst h'
      simpa [isHHMM] using h2
  · split_ifs at h with h1
    · injection h with h'
      subst h'
      simpa [isHHMM] using h1
  · exact Option.noConfusion h

theorem findTime_isHHMM {s t : List Char} (h : findTime s = some t) : isHHMM t = true := by
  induction s with
  | nil => simp [findTime] at h
  | cons c cs ih =>
    cases hm : timeMatchAt (c :: cs) with
    | some m =>
      simp only [findTime, hm] at h
      injection h with h'
      subst h'
      exact timeMatchAt_isHHMM hm
    | none =>
      simp only [findTime, hm] at h
      exact ih h

/-- Claim C9 (counterexample): the extractor does *not* reject every text
containing a score-like substring — only the four literals `0-0`, `1-1`,
`2-1`, `3-0` are checked.  This element text contains the score-like
substring `3-2` and still yields a record. -/
theorem c9_counterexample :
    containsSub "3-2" "Arsenal vs Chelsea 3-2 odds 19:30" = true ∧
      parse_fixture_element cal0 "ESPN" "Arsenal vs Chelsea 3-2 odds 19:30" =
        some { date := "Saturday, 17 October 2026", time := "19:30", home_team := "Arsenal",
               away_team := "Chelsea", competition := "UEFA Champions League",
               country := "Europe", status := "Scheduled", tv_info := "BT Sport, CBS Sports",
               source := "ESPN", type := "real_extraction" } := by
  constructor <;> decide

/-- Claim C9 (amended): every record `parse_fixture_element` produces carries
a kickoff time matching `\d{1,2}:\d{2}` and status `"Scheduled"` (and the
record shape has no score fields at all); any element text shorter than 15
characters, containing one of the finished/live markers `FINAL`, `FT`,
`RESULT`, `ENDED`, `LIVE` (upper-cased substring check), containing one of
the four literal substrings `0-0`, `1-1`, `2-1`, `3-0`, or lacking an
`HH:MM` time, is rejected. -/
theorem c9_amended (cal : Calendar) (source_name text : String) :
    (text.length < 15 → parse_fixture_element cal source_name text = none) ∧
      (finishedMarkers.any (fun w => containsSub w (upperS text)) = true →
        parse_fixture_element cal source_name text = none) ∧
      (scoreMarkers.any (fun w => containsSub w text) = true →
        parse_fixture_element cal source_name text = none) ∧
      (findTime text.data = none → parse_fixture_element cal source_name text = none) ∧
      (∀ f, parse_fixture_element cal source_name text = some f →
        f.status = "Scheduled" ∧ isHHMM f.time.data = true) := by
  refine ⟨?_, ?_, ?_, ?_, ?_⟩
  · intro h
    simp [parse_fixture_element, h]
  · intro h
    simp [parse_fixture_element, h]
  · intro h
    simp [parse_fixture_element, h]
  · intro h
    simp [parse_fixture_element, h]
  · intro f hf
    unfold parse_fixture_element at hf
    split_ifs at hf with h1 h2 h3
    cases ht : findTime text.data with
    | none => simp [ht] at hf
    | some t =>
      simp only [ht] at hf
      cases hteams : extract_team_names text.data with
      | none => simp [hteams] at hf
      | some pr =>
        obtain ⟨home, away⟩ := pr
        simp only [hteams] at hf
        cases hlook : competitions.lookup (identify_competition_from_teams home away) with
        | none => simp [hlook] at hf
        | some cd =>
          simp only [hlook] at hf
          injection hf with hf
          subst hf
          exact ⟨rfl, findTime_isHHMM ht⟩

/-- Witness for C9 (amended): a too-short element text is rejected. -/
theorem c9_witness : parse_fixture_element cal0 "ESPN" "abc" = none :=
  (c9_amended cal0 "ESPN" "abc").1 (by decide)

/-! ## Claim C5 -/

theorem dget_cases (l : List (String × String)) (k d : String) :
    (dget l k d = d ∧ ∀ p ∈ l, p.1 ≠ k) ∨ ∃ p ∈ l, p.1 = k ∧ dget l k d = p.2 := by
  induction l with
  | nil => exact Or.inl ⟨rfl, by simp⟩
  | cons q t ih =>
    obtain ⟨a, b⟩ := q
    by_cases hq : (k == a) = true
    · right
      exact ⟨(a, b), List.mem_cons_self _ _, (beq_iff_eq.1 hq).symm, by simp [dget, hq]⟩
    · rw [Bool.not_eq_true] at hq
      rcases ih with ⟨hd, hall⟩ | ⟨p, hp, hpk, hv⟩
      · left
        refine ⟨by simp [dget, hq, hd], ?_⟩
        intro p hp
        rcases List.mem_cons.1 hp with rfl | hmem
        · intro hak
          dsimp only at hak
          subst hak
          simp at hq
        · exact hall p hmem
      · right
        exact ⟨p, List.mem_cons_of_mem _ hp, hpk, by simp [dget, hq, hv]⟩

theorem dget_eq_default_of_no_key {l : List (String × String)} {k d : String}
    (h : ∀ p ∈ l, p.1 ≠ k) : dget l k d = d := by
  induction l with
  | nil => rfl
  | cons q t ih =>
    obtain ⟨a, b⟩ := q
    have ha : (k == a) = false := by
      rw [beq_eq_false_iff_ne]
      intro hk
      exact h (a, b) (List.mem_cons_self _ _) hk.symm
    simp only [dget, ha]
    exact ih fun p hp => h p (List.mem_cons_of_mem _ hp)

theorem mem_of_mem_pstripC {a : Char} {s : List Char} (h : a ∈ pstripC s) : a ∈ s := by
  unfold pstripC at h
  rw [List.mem_reverse] at h
  have h2 := List.Sublist.mem h (List.dropWhile_sublist _)
  rw [List.mem_reverse] at h2
  exact List.Sublist.mem h2 (List.dropWhile_sublist _)

theorem dropWhile_head_false {p : Char → Bool} {s : List Char} {a : Char} {t : List Char}
    (h : s.dropWhile p = a :: t) : p a = false := by
  induction s with
  | nil => simp [List.dropWhile] at h
  | cons c cs ih =>
    rw [List.dropWhile_cons] at h
    split_ifs at h with hc
    · exact ih h
    · injection h with h1 _
      subst h1
      exact Bool.eq_false_iff.2 hc

theorem suffix_getLast? {w z : List Char} (h : w.IsSuffix z) (hw : w ≠ []) :
    z.getLast? = w.getLast? := by
  obtain ⟨pre, rfl⟩ := h
  rw [List.getLast?_append]
  cases hwl : w.getLast? with
  | none => exact absurd (List.getLast?_eq_none_iff.1 hwl) hw
  | some b => simp [Option.or]

theorem pstripC_head_false {s : List Char} {a : Char} {t : List Char}
    (h : pstripC s = a :: t) : isPyWS a = false := by
  unfold pstripC at h
  set u := s.dropWhile isPyWS with hu
  have hne : u.reverse.dropWhile isPyWS ≠ [] := by
    intro hnil
    rw [hnil] at h
    simp at h
  have hgl : (u.reverse.dropWhile isPyWS).getLast? = some a := by
    rw [← List.head?_reverse, h]
    rfl
  have hzl : u.reverse.getLast? = some a := by
    rw [suffix_getLast? (List.dropWhile_suffix _) hne]
    exact hgl
  rw [List.getLast?_reverse] at hzl
  cases hu2 : u with
  | nil => rw [hu2] at hzl; simp at hzl
  | cons b u' =>
    rw [hu2] at hzl
    have hba : b = a := by simpa using hzl
    have hbf : isPyWS b = false := dropWhile_head_false (hu.symm.trans hu2)
    rw [← hba]
    exact hbf

theorem pstripC_eq_self {s : List Char}
    (hh : ∀ a t, s = a :: t → isPyWS a = false)
    (hl : ∀ b, s.getLast? = some b → isPyWS b = false) : pstripC s = s := by
  unfold pstripC
  have h1 : s.dropWhile isPyWS = s := by
    cases hs : s with
    | nil => rfl
    | cons a t => rw [List.dropWhile_cons, if_neg (by simp [hh a t hs])]
  rw [h1]
  have h2 : s.reverse.dropWhile isPyWS = s.reverse := by
    cases hsr : s.reverse with
    | nil => rfl
    | cons b t' =>
      have hbl : s.getLast? = some b := by
        rw [← List.head?_reverse, hsr]
        rfl
      rw [List.dropWhile_cons, if_neg (by simp [hl b hbl])]
  rw [h2, List.reverse_reverse]

theorem km_len : ∀ p ∈ cleanMappings, p.1.data.length < 35 := by decide

theorem vm_len : ∀ p ∈ cleanMappings, p.2.data.length ≤ 35 := by decide

theorem vm_chars : ∀ p ∈ cleanMappings, ∀ ch ∈ p.2.data, keepChar ch = true := by decide

theorem vm_headD : ∀ p ∈ cleanMappings, isPyWS (p.2.data.headD 'A') = false := by decide

theorem vm_not_key : ∀ p ∈ cleanMappings, ∀ q ∈ cleanMappings, q.1 ≠ p.2 := by decide

/-- The second application of `clean_team_name` is the identity on a string
of the form `take 35 m` when `m` is made of kept characters, does not start
with whitespace, the truncation is not a mapping key, and — the one condition
the code does not guarantee — the truncation does not end in whitespace. -/
theorem clean_take_self {m : List Char}
    (hkeep : ∀ ch ∈ m, keepChar ch = true)
    (hhead : ∀ a t, m = a :: t → isPyWS a = false)
    (hnokey : ∀ p ∈ cleanMappings, p.1 ≠ String.mk (m.take 35))
    (hlast : endsInWS (String.mk (m.take 35)) = false) :
    clean_team_name (String.mk (m.take 35)) = String.mk (m.take 35) := by
  have hfil : (m.take 35).filter keepChar = m.take 35 :=
    List.filter_eq_self.2 fun a ha => hkeep a (List.Sublist.mem ha (List.take_sublist _ _))
  have hstrip : pstripC (m.take 35) = m.take 35 := by
    apply pstripC_eq_self
    · intro a t hat
      cases m with
      | nil => simp at hat
      | cons b bs =>
        have hbt : (b :: bs).take 35 = b :: bs.take 34 := rfl
        rw [hbt] at hat
        cases hat
        exact hhead a bs rfl
    · intro b hb
      unfold endsInWS at hlast
      rw [show (String.mk (m.take 35)).data = m.take 35 from rfl, hb] at hlast
      exact hlast
  have hdg : dget cleanMappings (String.mk (m.take 35)) (String.mk (m.take 35)) =
      String.mk (m.take 35) :=
    dget_eq_default_of_no_key hnokey
  have hylen : (m.take 35).length ≤ 35 := by
    rw [List.length_take]
    omega
  show String.mk ((dget cleanMappings
      (String.mk (pstripC ((String.mk (m.take 35)).data.filter keepChar)))
      (String.mk (pstripC ((String.mk (m.take 35)).data.filter keepChar)))).data.take 35) =
    String.mk (m.take 35)
  rw [show (String.mk (m.take 35)).data = m.take 35 from rfl, hfil, hstrip, hdg]
  rw [show (String.mk (m.take 35)).data = m.take 35 from rfl]
  rw [List.take_of_length_le hylen]

/-- Claim C5 (counterexample): the normalizer is not idempotent — truncation
to 35 characters can cut a name right after a space, and the second
application strips that trailing space.  Here
`clean(x) = "aaa…a "` (34 `a`s and a trailing space) but
`clean(clean(x)) = "aaa…a"`. -/
theorem c5_counterexample :
    clean_team_name (clean_team_name "aaaaaaaaaaaaaaaaaaaaaaaaaaaaaaaaaa b") ≠
      clean_team_name "aaaaaaaaaaaaaaaaaaaaaaaaaaaaaaaaaa b" := by decide

/-- Claim C5 (amended): `clean_team_name` is idempotent on every input whose
normalized form does not end in whitespace; equivalently, idempotence can
fail only through the `[:35]` truncation leaving a trailing whitespace
character that the second application's `strip()` removes. -/
theorem c5_amended (x : String) (h : endsInWS (clean_team_name x) = false) :
    clean_team_name (clean_team_name x) = clean_team_name x := by
  rcases dget_cases cleanMappings (String.mk (pstripC (x.data.filter keepChar)))
      (String.mk (pstripC (x.data.filter keepChar))) with ⟨hd, hall⟩ | ⟨p, hp, hpk, hv⟩
  · have hx : clean_team_name x = String.mk ((pstripC (x.data.filter keepChar)).take 35) := by
      show String.mk ((dget cleanMappings (String.mk (pstripC (x.data.filter keepChar)))
        (String.mk (pstripC (x.data.filter keepChar)))).data.take 35) = _
      rw [hd]
    rw [hx] at h ⊢
    apply clean_take_self
    · intro ch hch
      exact List.of_mem_filter (mem_of_mem_pstripC hch)
    · intro a t hat
      exact pstripC_head_false hat
    · by_cases hlen : (pstripC (x.data.filter keepChar)).length ≤ 35
      · rw [List.take_of_length_le hlen]
        exact fun p hp => hall p hp
      · intro p hp heq
        have h1 : p.1.data.length < 35 := km_len p hp
        have h2 : (String.mk ((pstripC (x.data.filter keepChar)).take 35)).data.length = 35 := by
          rw [show (String.mk ((pstripC (x.data.filter keepChar)).take 35)).data =
            (pstripC (x.data.filter keepChar)).take 35 from rfl, List.length_take]
          omega
        rw [← heq] at h2
        omega
    · exact h
  · have hx : clean_team_name x = String.mk (p.2.data.take 35) := by
      show String.mk ((dget cleanMappings (String.mk (pstripC (x.data.filter keepChar)))
        (String.mk (pstripC (x.data.filter keepChar)))).data.take 35) = _
      rw [hv]
    rw [hx] at h ⊢
    apply clean_take_self
    · intro ch hch
      exact vm_chars p hp ch hch
    · intro a t hat
      have hhd := vm_headD p hp
      rw [hat] at hhd
      exact hhd
    · intro q hq
      rw [List.take_of_length_le (vm_len p hp)]
      show q.1 ≠ p.2
      exact vm_not_key p hp q hq
    · exact h

/-- Witness for C5 (amended) at a concrete input. -/
theorem c5_witness :
    endsInWS (clean_team_name "Arsenal") = false ∧
      clean_team_name (clean_team_name "Arsenal") = clean_team_name "Arsenal" :=
  ⟨by decide, c5_amended "Arsenal" (by decide)⟩

/-! ## Claim C7 -/

theorem readUnquotedN_roundtrip (f rest : List Char)
    (hf : ∀ c ∈ f, ¬(c = ',' ∨ c = '\n'))
    (hrest : rest = [] ∨ ∃ t, rest = ',' :: t ∨ rest = '\n' :: t) :
    readUnquotedN (f ++ rest) = (f, f.length) := by
  induction f with
  | nil =>
    rcases hrest with rfl | ⟨t, rfl | rfl⟩ <;> rfl
  | cons c f' ih =>
    have hc := hf c (List.mem_cons_self _ _)
    have hcc : (c == ',' || c == '\n') = false := by
      simp only [Bool.or_eq_false_iff, beq_eq_false_iff_ne]
      exact ⟨fun h => hc (Or.inl h), fun h => hc (Or.inr h)⟩
    have ih' := ih (fun x hx => hf x (List.mem_cons_of_mem _ hx))
    simp only [List.cons_append, readUnquotedN, hcc, Bool.false_eq_true, if_false]
    rw [show f'.append rest = f' ++ rest from rfl, ih']
    simp

theorem readQuotedN_escape (f rest : List Char) (hrest : ∀ t, rest ≠ '"' :: t) :
    readQuotedN (escapeQ f ++ '"' :: rest) = (f, (escapeQ f).length + 1) := by
  induction f with
  | nil =>
    cases rest with
    | nil => rfl
    | cons c2 t2 =>
      have hc2 : (c2 == '"') = false := by
        rw [beq_eq_false_iff_ne]
        intro h
        exact hrest t2 (by rw [h])
      simp [escapeQ, readQuotedN, hc2]
  | cons a f' ih =>
    by_cases ha : a = '"'
    · subst ha
      simp only [escapeQ, beq_self_eq_true, if_true, List.cons_append, readQuotedN]
      rw [show (escapeQ f').append ('"' :: rest) = escapeQ f' ++ '"' :: rest from rfl, ih]
      simp only [Prod.mk.injEq, List.length_cons]
    · have ha' : (a == '"') = false := beq_eq_false_iff_ne.2 ha
      have hstep : readQuotedN (a :: (escapeQ f' ++ '"' :: rest)) =
          (a :: (readQuotedN (escapeQ f' ++ '"' :: rest)).1,
            (readQuotedN (escapeQ f' ++ '"' :: rest)).2 + 1) := by
        rw [readQuotedN.eq_def]
        simp [ha']
      simp only [escapeQ, ha', Bool.false_eq_true, if_false, List.cons_append]
      rw [hstep, ih]
      simp only [Prod.mk.injEq, List.length_cons]

theorem readFieldN_roundtrip (f rest : List Char)
    (hrest : rest = [] ∨ ∃ t, rest = ',' :: t ∨ rest = '\n' :: t) :
    readFieldN (csvFieldC f ++ rest) = (f, (csvFieldC f).length) := by
  by_cases hq : needsQuote f = true
  · have hrest' : ∀ t, rest ≠ '"' :: t := by
      rcases hrest with rfl | ⟨t, rfl | rfl⟩ <;> intro u hu <;> simp at hu
    simp only [csvFieldC, hq, if_true]
    have hshape : ('"' :: (escapeQ f ++ ['"'])) ++ rest =
        '"' :: (escapeQ f ++ '"' :: rest) := by
      simp [List.append_assoc]
    rw [hshape]
    simp only [readFieldN, beq_self_eq_true, if_true]
    rw [readQuotedN_escape f rest hrest']
    simp [List.length_append]
  · have hq' : needsQuote f = false := by rwa [Bool.not_eq_true] at hq
    have hchars : ∀ c ∈ f, ¬(c = ',' ∨ c = '\n') := by
      intro c hcmem hor
      have hnp := List.any_eq_false.1 hq' c hcmem
      apply hnp
      rcases hor with rfl | rfl <;> simp
    simp only [csvFieldC, hq']
    rw [if_neg (by simp [hq'])]
    cases f with
    | nil =>
      rcases hrest with rfl | ⟨t, rfl | rfl⟩ <;> rfl
    | cons c f' =>
      have hcq : (c == '"') = false := by
        rw [beq_eq_false_iff_ne]
        intro hcq
        have hnp := List.any_eq_false.1 hq' c (List.mem_cons_self _ _)
        apply hnp
        simp [hcq]
      simp only [List.cons_append, readFieldN, hcq]
      rw [show (c :: (f' ++ rest)) = (c :: f') ++ rest from rfl]
      exact readUnquotedN_roundtrip (c :: f') rest hchars hrest

theorem csvLineC_fields_le (fields : List (List Char)) :
    fields.length ≤ (csvLineC fields).length + 1 := by
  induction fields with
  | nil => simp
  | cons f fs ih =>
    cases fs with
    | nil => simp [csvLineC]
    | cons f2 fs' =>
      simp only [csvLineC, List.length_cons, List.length_append] at ih ⊢
      omega

theorem parseRecordF_line (fuel : Nat) (fields : List (List Char)) (rest : List Char)
    (hfuel : fields.length < fuel) :
    parseRecordF fuel (csvLineC fields ++ '\n' :: rest) =
      ((if fields.isEmpty then [""] else fields.map fun f => String.mk f),
        (csvLineC fields).length + 1) := by
  induction fields generalizing fuel with
  | nil =>
    cases fuel with
    | zero => omega
    | succ fu => rfl
  | cons f fs ih =>
    cases fuel with
    | zero => omega
    | succ fu =>
      cases fs with
      | nil =>
        have hrf := readFieldN_roundtrip f ('\n' :: rest) (Or.inr ⟨rest, Or.inr rfl⟩)
        have hdrop : ((csvFieldC f ++ '\n' :: rest).drop (csvFieldC f).length) =
            '\n' :: rest := by
          have := List.drop_left (csvFieldC f) ('\n' :: rest)
          exact this
        simp only [csvLineC, parseRecordF, hrf, hdrop]
        rfl
      | cons f2 fs' =>
        have hs : csvLineC (f :: f2 :: fs') ++ '\n' :: rest =
            csvFieldC f ++ (',' :: (csvLineC (f2 :: fs') ++ '\n' :: rest)) := by
          simp [csvLineC, List.append_assoc]
        have hrf := readFieldN_roundtrip f (',' :: (csvLineC (f2 :: fs') ++ '\n' :: rest))
          (Or.inr ⟨_, Or.inl rfl⟩)
        have hdrop : ((csvFieldC f ++
            (',' :: (csvLineC (f2 :: fs') ++ '\n' :: rest))).drop (csvFieldC f).length) =
            ',' :: (csvLineC (f2 :: fs') ++ '\n' :: rest) :=
          List.drop_left _ _
        rw [hs]
        simp only [parseRecordF, hrf, hdrop]
        rw [show ((',' : Char) == ',') = true from rfl]
        simp only [if_true]
        rw [ih fu (by simp at hfuel ⊢; omega)]
        simp [csvLineC, Prod.mk.injEq, List.length_append, List.length_cons]
        omega

theorem parseRecord_line (fields : List (List Char)) (rest : List Char) :
    parseRecord (csvLineC fields ++ '\n' :: rest) =
      ((if fields.isEmpty then [""] else fields.map fun f => String.mk f),
        (csvLineC fields).length + 1) := by
  apply parseRecordF_line
  have h1 := csvLineC_fields_le fields
  have h2 : (csvLineC fields).length + 1 ≤ (csvLineC fields ++ '\n' :: rest).length := by
    simp [List.length_append]
  omega

theorem map_mk_data (r : List String) :
    ((r.map String.data).map fun l => String.mk l) = r := by
  induction r with
  | nil => rfl
  | cons s t ih => simp [ih]

theorem parseCsvF_join (fuel : Nat) (rows : List (List String))
    (hfuel : (csvJoin rows).length ≤ fuel) :
    parseCsvF fuel (csvJoin rows) =
      rows.map (fun r => if r.isEmpty then [""] else r) := by
  induction rows generalizing fuel with
  | nil =>
    cases fuel with
    | zero => rfl
    | succ fu => rfl
  | cons r rows' ih =>
    have hjoin : csvJoin (r :: rows') =
        csvLineC (r.map String.data) ++ '\n' :: csvJoin rows' := by
      simp [csvJoin, List.append_assoc]
    rw [hjoin] at hfuel ⊢
    obtain ⟨c, t, hct⟩ : ∃ c t, csvLineC (r.map String.data) ++ '\n' :: csvJoin rows' =
        c :: t := by
      cases hl : csvLineC (r.map String.data) with
      | nil => exact ⟨'\n', csvJoin rows', by simp⟩
      | cons a u => exact ⟨a, u ++ '\n' :: csvJoin rows', by simp⟩
    have hlen : 1 ≤ (csvLineC (r.map String.data) ++ '\n' :: csvJoin rows').length := by
      rw [hct]; simp
    cases fuel with
    | zero => omega
    | succ fu =>
      rw [hct]
      simp only [parseCsvF]
      rw [← hct]
      have hrec := parseRecord_line (r.map String.data) (csvJoin rows')
      rw [hrec]
      have hmax : max ((csvLineC (r.map String.data)).length + 1) 1 =
          (csvLineC (r.map String.data)).length + 1 := by omega
      rw [hmax]
      have hdrop : ((csvLineC (r.map String.data) ++ '\n' :: csvJoin rows').drop
          ((csvLineC (r.map String.data)).length + 1)) = csvJoin rows' := by
        have hsplit : csvLineC (r.map String.data) ++ '\n' :: csvJoin rows' =
            (csvLineC (r.map String.data) ++ ['\n']) ++ csvJoin rows' := by
          simp [List.append_assoc]
        rw [hsplit]
        have hdl := List.drop_left (csvLineC (r.map String.data) ++ ['\n']) (csvJoin rows')
        rw [List.length_append] at hdl
        rw [show (['\n'] : List Char).length = 1 from rfl] at hdl
        exact hdl
      rw [hdrop]
      rw [ih fu (by simp only [List.length_append, List.length_cons] at hfuel; omega)]
      congr 1
      by_cases hre : r.isEmpty = true
      · have : r = [] := by cases r with | nil => rfl | cons a b => simp at hre
        subst this
        simp
      · have hr' : r.isEmpty = false := by rwa [Bool.not_eq_true] at hre
        have hrd : (r.map String.data).isEmpty = false := by
          cases r with | nil => simp at hr' | cons a b => rfl
        simp only [hrd, hr', Bool.false_eq_true, if_false, List.map_map]
        rw [← List.map_map]
        exact map_mk_data r

theorem parseCsv_csvJoin (rows : List (List String)) :
    parseCsv (csvJoin rows) = rows.map (fun r => if r.isEmpty then [""] else r) :=
  parseCsvF_join _ rows le_rfl

/-- Claim C7: for every record batch (the empty batch included) the
spreadsheet and CSV writers emit the same header ordering and the same number
of data rows, and reading the CSV text back yields exactly one header record
plus one data record per input record. -/
theorem c7_export_roundtrip (fixtures : List Enhanced) :
    (excelSheet fixtures).rows.length = fixtures.length ∧
      (excelSheet fixtures).header = dfColumns fixtures ∧
      (parseCsv (csvText fixtures).data).length = 1 + fixtures.length ∧
      (parseCsv (csvText fixtures).data).length = 1 + (excelSheet fixtures).rows.length ∧
      (fixtures ≠ [] →
        (parseCsv (csvText fixtures).data).headD [] = (excelSheet fixtures).header) := by
  have hparse : parseCsv (csvText fixtures).data =
      (dfColumns fixtures :: dfRows fixtures).map
        (fun r => if r.isEmpty then [""] else r) := by
    rw [show (csvText fixtures).data = csvJoin (dfColumns fixtures :: dfRows fixtures)
      from rfl]
    exact parseCsv_csvJoin _
  refine ⟨by simp [excelSheet, dfRows], rfl, ?_, ?_, ?_⟩
  · rw [hparse]
    simp [dfRows]
    omega
  · rw [hparse]
    simp [excelSheet, dfRows]
    omega
  · intro hne
    rw [hparse]
    have hcols : dfColumns fixtures = exportHeaders := by
      unfold dfColumns
      rw [if_neg (by simp [hne])]
    simp [hcols, excelSheet, exportHeaders]

/-- Witness for C7 at a concrete one-record batch. -/
theorem c7_witness :
    (parseCsv (csvText [e0]).data).headD [] = (excelSheet [e0]).header :=
  (c7_export_roundtrip [e0]).2.2.2.2 (by simp)

end DFL
